import Mathlib

/-!
Verification of the MatSelect recommendation core (matselect/core/recommender.py
and the consumed adapter interface of matselect/sources/materials_project.py).

Modelling conventions:
* A pandas DataFrame of material rows is a `List` of records; boolean-mask
  filtering is `List.filter` (order preserving), column assignment is `map`.
* Python float literals (0.1, 0.02, 1e-10, ...) are idealised as the exact
  rationals they denote; all row arithmetic is over `ℚ`.  Rational constants
  are written with `mkRat` and division with `qdiv` so that every definition
  evaluates inside the kernel; `qdiv_eq_div` and `Rat.mkRat_eq_div` relate
  them to the field operations used in the stated properties.
* `row.get(key, default)` on a pandas row returns the default only when the
  column is absent; absence is modelled with `Option`.
* `DataFrame.sort_values(col, ascending=False)` with the default
  kind='quicksort' sorts into descending key order; numpy's introsort is
  stable only below its small-partition insertion-sort threshold, so the
  relative order the program gives rows of equal key is
  implementation-defined for larger batches (and the pipeline feeds it up
  to 100 rows).  The model `sort_values_desc` is a descending insertion
  sort: it fixes one admissible tie order, and nothing proved below
  depends on that choice — the concrete evaluations sort pairwise-distinct
  keys, where every descending sort agrees, and the remaining uses go
  through lengths and membership only.
-/

namespace MatSelect

/-- Division on `ℚ` computed directly on numerators and denominators, so that
the kernel can evaluate it on literals (the field-division instance of `ℚ`
does not reduce).  `qdiv_eq_div` shows it is exactly `a / b`. -/
def qdiv (a b : ℚ) : ℚ := Rat.divInt (a.num * (b.den : ℤ)) ((a.den : ℤ) * b.num)

theorem qdiv_eq_div (a b : ℚ) : qdiv a b = a / b := by
  unfold qdiv
  rcases eq_or_ne b 0 with hb | hb
  · subst hb
    simp [Rat.divInt_eq_div]
  · have hbn : (b.num : ℚ) ≠ 0 := Int.cast_ne_zero.mpr (Rat.num_ne_zero.mpr hb)
    have had : ((a.den : ℚ)) ≠ 0 := Nat.cast_ne_zero.mpr a.den_nz
    have hbd : ((b.den : ℚ)) ≠ 0 := Nat.cast_ne_zero.mpr b.den_nz
    have h1 : (a.num : ℚ) = a * (a.den : ℚ) := (div_eq_iff had).mp (Rat.num_div_den a)
    have h2 : (b.num : ℚ) = b * (b.den : ℚ) := (div_eq_iff hbd).mp (Rat.num_div_den b)
    rw [Rat.divInt_eq_div]
    push_cast
    rw [div_eq_div_iff (mul_ne_zero had hbn) hb, h1, h2]
    ring

/-- Addition on `ℚ` computed on numerators and denominators (the field
instances of `ℚ` are irreducible to the elaborator); `qadd_eq_add` shows it
is exactly `a + b`. -/
def qadd (a b : ℚ) : ℚ :=
  Rat.divInt (a.num * (b.den : ℤ) + b.num * (a.den : ℤ)) ((a.den : ℤ) * (b.den : ℤ))

/-- Multiplication on `ℚ` computed on numerators and denominators;
`qmul_eq_mul` shows it is exactly `a * b`. -/
def qmul (a b : ℚ) : ℚ := Rat.divInt (a.num * b.num) ((a.den : ℤ) * (b.den : ℤ))

/-- Subtraction on `ℚ`; `qsub_eq_sub` shows it is exactly `a - b`. -/
def qsub (a b : ℚ) : ℚ := qadd a (-b)

theorem qadd_eq_add (a b : ℚ) : qadd a b = a + b := by
  unfold qadd
  have had : ((a.den : ℚ)) ≠ 0 := Nat.cast_ne_zero.mpr a.den_nz
  have hbd : ((b.den : ℚ)) ≠ 0 := Nat.cast_ne_zero.mpr b.den_nz
  have h1 : (a.num : ℚ) = a * (a.den : ℚ) := (div_eq_iff had).mp (Rat.num_div_den a)
  have h2 : (b.num : ℚ) = b * (b.den : ℚ) := (div_eq_iff hbd).mp (Rat.num_div_den b)
  rw [Rat.divInt_eq_div]
  push_cast
  rw [div_eq_iff (mul_ne_zero had hbd), h1, h2]
  ring

theorem qmul_eq_mul (a b : ℚ) : qmul a b = a * b := by
  unfold qmul
  have had : ((a.den : ℚ)) ≠ 0 := Nat.cast_ne_zero.mpr a.den_nz
  have hbd : ((b.den : ℚ)) ≠ 0 := Nat.cast_ne_zero.mpr b.den_nz
  have h1 : (a.num : ℚ) = a * (a.den : ℚ) := (div_eq_iff had).mp (Rat.num_div_den a)
  have h2 : (b.num : ℚ) = b * (b.den : ℚ) := (div_eq_iff hbd).mp (Rat.num_div_den b)
  rw [Rat.divInt_eq_div]
  push_cast
  rw [div_eq_iff (mul_ne_zero had hbd), h1, h2]
  ring

theorem qsub_eq_sub (a b : ℚ) : qsub a b = a - b := by
  unfold qsub
  rw [qadd_eq_add]
  ring

/-- The stability ceiling 0.1 eV/atom, as an exact rational. -/
def stabilityCeiling : ℚ := mkRat 1 10

theorem stabilityCeiling_eq : stabilityCeiling = 1/10 := by
  rw [stabilityCeiling, Rat.mkRat_eq_div]
  norm_num

/-- One row of the candidate DataFrame produced by the adapter search
(`MaterialsProjectSource.search_by_properties`): the columns consumed by the
recommendation core. -/
structure MaterialRecord where
  mp_id : String
  formula : String
  energy_above_hull : ℚ
  band_gap : ℚ
  density : ℚ
  is_stable : Bool
  is_theoretical : Bool
  deriving DecidableEq, Repr

/-- The requirement keys actually consulted by the core pipeline
(`MatSelectAI._apply_filters` reads `max_density`; `MatSelectAI._score_materials`
reads `min_band_gap`).  The other documented keys (min_strength, max_temp,
max_cost_per_kg, corrosion_resistance) are never consulted by filtering or
scoring; `elements` / `max_band_gap` are only forwarded to the adapter search,
which is outside the modelled core. -/
structure Requirements where
  max_density : Option ℚ := none
  min_band_gap : Option ℚ := none
  deriving DecidableEq, Repr

/-- `MatSelectAI._apply_filters` (recommender.py lines 111-138): an optional
density ceiling when `max_density` is present, then the fixed stability
ceiling `energy_above_hull <= 0.1`, each as an order-preserving row filter. -/
def apply_filters (requirements : Requirements) (candidates : List MaterialRecord) :
    List MaterialRecord :=
  let f1 : List MaterialRecord :=
    match requirements.max_density with
    | some md => candidates.filter (fun (r : MaterialRecord) => decide (r.density ≤ md))
    | none => candidates
  f1.filter (fun (r : MaterialRecord) => decide (r.energy_above_hull ≤ stabilityCeiling))

/-- Elementwise `Series.clip(0, 1)`. -/
def clip01 (q : ℚ) : ℚ := min (max q 0) 1

/-- The stability component of `MatSelectAI._score_materials`
(recommender.py lines 167-171): `(1 - energy_above_hull / 0.1).clip(0, 1) * 40`. -/
def stabilityTerm (energy_above_hull : ℚ) : ℚ :=
  qmul (clip01 (qsub 1 (qdiv energy_above_hull stabilityCeiling))) 40

/-- C2: the constraint filter returns an order-preserving subsequence of its
input; every retained record satisfies the stability ceiling and, when a
density ceiling is active, the density ceiling; every rejected record
violates at least one active constraint. -/
theorem apply_filters_spec (reqs : Requirements) (cands : List MaterialRecord) :
    (apply_filters reqs cands).Sublist cands
    ∧ (∀ r ∈ apply_filters reqs cands,
        r.energy_above_hull ≤ 1/10 ∧
        ∀ md, reqs.max_density = some md → r.density ≤ md)
    ∧ (∀ r ∈ cands, r ∉ apply_filters reqs cands →
        1/10 < r.energy_above_hull ∨
        ∃ md, reqs.max_density = some md ∧ md < r.density) := by
  unfold apply_filters
  rcases hmd : reqs.max_density with _ | md
  · refine ⟨List.filter_sublist _, ?_, ?_⟩
    · intro r hr
      simp only [List.mem_filter, decide_eq_true_eq, stabilityCeiling_eq] at hr
      exact ⟨hr.2, fun md h => by simp at h⟩
    · intro r hr hnot
      simp only [List.mem_filter, decide_eq_true_eq, not_and, stabilityCeiling_eq] at hnot
      exact Or.inl (lt_of_not_le (hnot hr))
  · refine ⟨(List.filter_sublist _).trans (List.filter_sublist _), ?_, ?_⟩
    · intro r hr
      simp only [List.mem_filter, decide_eq_true_eq, stabilityCeiling_eq] at hr
      exact ⟨hr.2, fun md2 h => by
        simp only [Option.some.injEq] at h
        exact h ▸ hr.1.2⟩
    · intro r hr hnot
      simp only [List.mem_filter, decide_eq_true_eq, not_and, stabilityCeiling_eq] at hnot
      by_cases hd : r.density ≤ md
      · exact Or.inl (lt_of_not_le (hnot ⟨hr, hd⟩))
      · exact Or.inr ⟨md, rfl, lt_of_not_le hd⟩

/-- Witness for C2 at a concrete input: the retained record
(density 3, on hull) indeed satisfies the active density ceiling 5. -/
theorem apply_filters_spec_witness :
    (⟨"mp-1", "A", 0, 0, 3, true, false⟩ : MaterialRecord).density ≤ 5 :=
  ((apply_filters_spec ⟨some 5, none⟩
      [⟨"mp-1", "A", 0, 0, 3, true, false⟩, ⟨"mp-2", "B", 0, 0, 6, true, false⟩]).2.1
    ⟨"mp-1", "A", 0, 0, 3, true, false⟩ (by decide)).2 5 rfl

/-- C4: the stability term equals `clip(1 - energy_above_hull / 0.1, 0, 1) * 40`,
is monotonically non-increasing in `energy_above_hull` over `[0, 0.1]`,
equals 40 on the hull and 0 at the 0.1 eV/atom ceiling. -/
theorem stabilityTerm_spec :
    (∀ e : ℚ, stabilityTerm e = min (max (1 - e / (1/10)) 0) 1 * 40)
    ∧ (∀ e1 e2 : ℚ, 0 ≤ e1 → e1 ≤ e2 → e2 ≤ 1/10 →
        stabilityTerm e2 ≤ stabilityTerm e1)
    ∧ stabilityTerm 0 = 40
    ∧ stabilityTerm (1/10) = 0 := by
  have hform : ∀ e : ℚ, stabilityTerm e = min (max (1 - e / (1/10)) 0) 1 * 40 := by
    intro e
    unfold stabilityTerm clip01
    rw [qmul_eq_mul, qsub_eq_sub, qdiv_eq_div, stabilityCeiling_eq]
  refine ⟨hform, ?_, by rw [hform]; norm_num, by rw [hform]; norm_num⟩
  intro e1 e2 _ h12 _
  rw [hform, hform]
  have hmono : 1 - e2 / (1/10) ≤ 1 - e1 / (1/10) := by
    have : e1 / (1/10) ≤ e2 / (1/10) := by
      apply div_le_div_of_nonneg_right h12
      norm_num
    linarith
  have : min (max (1 - e2 / (1/10)) 0) 1 ≤ min (max (1 - e1 / (1/10)) 0) 1 :=
    min_le_min (max_le_max hmono le_rfl) le_rfl
  linarith

/-- Witness for C4 at concrete inputs: monotonicity applied at 0 ≤ 0.1. -/
theorem stabilityTerm_spec_witness :
    stabilityTerm (1/10) ≤ stabilityTerm 0 :=
  stabilityTerm_spec.2.1 0 (1/10) le_rfl (by norm_num) le_rfl

/-- Descending insertion, the step of the sort model: `x` goes after every
element whose key is at least `key x` and before the first strictly smaller
one. -/
def insertDesc {α : Type} (key : α → ℚ) (x : α) : List α → List α
  | [] => [x]
  | y :: ys => if key x ≤ key y then y :: insertDesc key x ys else x :: y :: ys

/-- `DataFrame.sort_values(col, ascending=False)`: a sort into descending key
order.  The program's relative order of equal keys is implementation-defined
(see the header comment); this model fixes one admissible tie order, and no
theorem below relies on it. -/
def sort_values_desc {α : Type} (key : α → ℚ) (xs : List α) : List α :=
  xs.foldl (fun acc x => insertDesc key x acc) []

theorem insertDesc_length {α : Type} (key : α → ℚ) (x : α) (l : List α) :
    (insertDesc key x l).length = l.length + 1 := by
  induction l with
  | nil => rfl
  | cons y ys ih =>
    unfold insertDesc
    split
    · simp only [List.length_cons, ih]
    · simp only [List.length_cons]

theorem insertDesc_mem {α : Type} (key : α → ℚ) (x a : α) (l : List α) :
    a ∈ insertDesc key x l ↔ a = x ∨ a ∈ l := by
  induction l with
  | nil => simp [insertDesc]
  | cons y ys ih =>
    unfold insertDesc
    split
    · simp only [List.mem_cons, ih]
      tauto
    · simp only [List.mem_cons]

theorem insertDesc_pairwise {α : Type} (key : α → ℚ) (x : α) (l : List α)
    (h : l.Pairwise (fun a b => key b ≤ key a)) :
    (insertDesc key x l).Pairwise (fun a b => key b ≤ key a) := by
  induction l with
  | nil => simp [insertDesc]
  | cons y ys ih =>
    rw [List.pairwise_cons] at h
    unfold insertDesc
    split
    · rename_i hxy
      rw [List.pairwise_cons]
      refine ⟨?_, ih h.2⟩
      intro z hz
      rcases (insertDesc_mem key x z ys).mp hz with hzx | hzy
      · rw [hzx]
        exact hxy
      · exact h.1 z hzy
    · rename_i hxy
      rw [List.pairwise_cons]
      refine ⟨?_, List.pairwise_cons.mpr h⟩
      intro z hz
      rcases List.mem_cons.mp hz with hzy | hzys
      · rw [hzy]
        exact le_of_lt (lt_of_not_le hxy)
      · exact le_trans (h.1 z hzys) (le_of_lt (lt_of_not_le hxy))

theorem sort_core {α : Type} (key : α → ℚ) (xs acc : List α)
    (hacc : acc.Pairwise (fun a b => key b ≤ key a)) :
    (xs.foldl (fun acc x => insertDesc key x acc) acc).Pairwise (fun a b => key b ≤ key a)
    ∧ (xs.foldl (fun acc x => insertDesc key x acc) acc).length = acc.length + xs.length
    ∧ (∀ a, a ∈ xs.foldl (fun acc x => insertDesc key x acc) acc ↔ a ∈ acc ∨ a ∈ xs) := by
  induction xs generalizing acc with
  | nil => simp [hacc]
  | cons x xs ih =>
    have h1 := ih (insertDesc key x acc) (insertDesc_pairwise key x acc hacc)
    rw [List.foldl_cons]
    refine ⟨h1.1, ?_, ?_⟩
    · rw [h1.2.1, insertDesc_length]
      simp only [List.length_cons]
      omega
    · intro a
      rw [h1.2.2 a, insertDesc_mem]
      simp only [List.mem_cons]
      tauto

theorem sort_values_desc_pairwise {α : Type} (key : α → ℚ) (xs : List α) :
    (sort_values_desc key xs).Pairwise (fun a b => key b ≤ key a) := by
  unfold sort_values_desc
  exact (sort_core key xs [] (by simp)).1

theorem sort_values_desc_length {α : Type} (key : α → ℚ) (xs : List α) :
    (sort_values_desc key xs).length = xs.length := by
  unfold sort_values_desc
  have h := (sort_core key xs [] (by simp)).2.1
  simpa using h

theorem sort_values_desc_mem {α : Type} (key : α → ℚ) (xs : List α) (a : α) :
    a ∈ sort_values_desc key xs ↔ a ∈ xs := by
  rw [sort_values_desc, (sort_core key xs [] (by simp)).2.2 a]
  simp

/-- A row after scoring: the material columns plus `match_score`. -/
structure ScoredRecord where
  mat : MaterialRecord
  match_score : ℚ
  deriving DecidableEq, Repr

/-- A row after enrichment: scored plus the `recommendation_reason` column. -/
structure EnrichedRecord where
  mat : MaterialRecord
  match_score : ℚ
  recommendation_reason : String
  deriving DecidableEq, Repr

/-- `Series.min` of a column; the scoring terms only evaluate it on the
(nonempty) batch a scored row belongs to, so the empty default is inert. -/
def listMin : List ℚ → ℚ
  | [] => 0
  | x :: xs => xs.foldl min x

/-- `Series.max` of a column, as `listMin`. -/
def listMax : List ℚ → ℚ
  | [] => 0
  | x :: xs => xs.foldl max x

/-- The 1e-10 guard of the weight-term normalisation, as an exact rational. -/
def eps : ℚ := mkRat 1 10000000000

/-- The `match_score` of one row, accumulated as in
`MatSelectAI._score_materials` (recommender.py lines 155-182): an optional
batch-normalised inverse-density term, gated on "weight" being among the
optimization objectives (Python truthiness: `None` and `[]` both skip it; the
`density` column is always present on search results); the stability term
(the `energy_above_hull` column is always present); an optional band-gap
proximity term, gated on `min_band_gap` being required, whose target
`requirements.get('min_band_gap', 0)` is then that value; and the constant
baseline 10.  A term the source skips contributes 0 to the sum. -/
def scoreOf (reqs : Requirements) (optimize : Option (List String))
    (batch : List MaterialRecord) (r : MaterialRecord) : ℚ :=
  let weightScore : ℚ :=
    if (optimize.getD []).contains "weight" then
      let dmin := listMin (batch.map MaterialRecord.density)
      let dmax := listMax (batch.map MaterialRecord.density)
      qmul (qsub 1 (qdiv (qsub r.density dmin) (qadd (qsub dmax dmin) eps))) 30
    else 0
  let gapScore : ℚ :=
    match reqs.min_band_gap with
    | some target =>
      let bgmax := listMax (batch.map MaterialRecord.band_gap)
      qmul (clip01 (qsub 1 (qdiv |qsub r.band_gap target| (qadd bgmax 1)))) 30
    | none => 0
  qadd (qadd (qadd weightScore (stabilityTerm r.energy_above_hull)) gapScore) 10

/-- The scored batch before sorting: `scored['match_score'] = scores`. -/
def with_match_score (reqs : Requirements) (optimize : Option (List String))
    (mats : List MaterialRecord) : List ScoredRecord :=
  mats.map (fun r => ⟨r, scoreOf reqs optimize mats r⟩)

/-- `MatSelectAI._score_materials`: annotate every surviving row with its
`match_score`, then `scored.sort_values('match_score', ascending=False)`. -/
def score_materials (reqs : Requirements) (optimize : Option (List String))
    (mats : List MaterialRecord) : List ScoredRecord :=
  sort_values_desc ScoredRecord.match_score (with_match_score reqs optimize mats)

theorem score_materials_length (reqs : Requirements) (optimize : Option (List String))
    (mats : List MaterialRecord) :
    (score_materials reqs optimize mats).length = mats.length := by
  unfold score_materials with_match_score
  rw [sort_values_desc_length, List.length_map]

/-- The rationale synthesis of `MatSelectAI._enrich_materials`
(recommender.py lines 198-218), with the `row.get` defaults of the source:
`row.get('is_stable', False)`, `row.get('density', 10)`,
`row.get('energy_above_hull', 1)`; 0.02 is the exact rational 1/50.
A pure function of the three (possibly absent) row fields. -/
def recommendation_reason (is_stable : Option Bool) (density : Option ℚ)
    (energy_above_hull : Option ℚ) : String :=
  let parts1 : List String :=
    if is_stable.getD false then ["Thermodynamically stable"] else []
  let parts2 : List String :=
    if density.getD 10 < 5 then parts1 ++ ["Lightweight"] else parts1
  let parts3 : List String :=
    if energy_above_hull.getD 1 < mkRat 1 50 then parts2 ++ ["Highly stable"] else parts2
  if parts3.isEmpty then "Meets requirements" else String.intercalate "; " parts3

/-- `MatSelectAI._enrich_materials` over the top rows; on pipeline rows every
column is present. -/
def enrich_materials (xs : List ScoredRecord) : List EnrichedRecord :=
  xs.map (fun s =>
    ⟨s.mat, s.match_score,
      recommendation_reason (some s.mat.is_stable) (some s.mat.density)
        (some s.mat.energy_above_hull)⟩)

/-- `RecommendationResults.__init__` (recommender.py lines 282-290). -/
structure RecommendationResults where
  candidates : List EnrichedRecord
  requirements : Requirements
  optimize_objectives : Option (List String)
  show_tradeoffs : Bool
  deriving DecidableEq, Repr

/-- `MatSelectAI.recommend` (recommender.py lines 42-109), as a function of
the candidate list the adapter search returned.  On an empty search result
the source returns early with
`RecommendationResults(candidates=pd.DataFrame(), requirements=requirements)`,
leaving `optimize_objectives` at its default `None` and `show_tradeoffs` at
its default `False`. -/
def recommend (searchResult : List MaterialRecord) (requirements : Requirements)
    (optimize : Option (List String) := none) (show_tradeoffs : Bool := false)
    (top_n : ℕ := 5) : RecommendationResults :=
  if searchResult.length = 0 then
    ⟨[], requirements, none, false⟩
  else
    let filtered := apply_filters requirements searchResult
    let scored := score_materials requirements optimize filtered
    let top_materials := scored.take top_n
    let enriched := enrich_materials top_materials
    ⟨enriched, requirements, optimize, show_tradeoffs⟩

/-- C3: with empty requirements, no objectives and `top_n = 2`, candidates at
`energy_above_hull` 0, 0.05 and 0.1 get stability terms 40, 20, 0 and match
scores 50, 30, 10, and the ranker returns exactly the first two, in order. -/
theorem scoring_scenario_empty_requirements :
    stabilityTerm 0 = 40
    ∧ stabilityTerm (mkRat 1 20) = 20
    ∧ stabilityTerm (mkRat 1 10) = 0
    ∧ (with_match_score ⟨none, none⟩ none
        [⟨"mp-a", "A", 0, 0, 1, true, false⟩,
         ⟨"mp-b", "B", mkRat 1 20, 0, 1, true, false⟩,
         ⟨"mp-c", "C", mkRat 1 10, 0, 1, true, false⟩]).map ScoredRecord.match_score =
        [50, 30, 10]
    ∧ ((score_materials ⟨none, none⟩ none
        [⟨"mp-a", "A", 0, 0, 1, true, false⟩,
         ⟨"mp-b", "B", mkRat 1 20, 0, 1, true, false⟩,
         ⟨"mp-c", "C", mkRat 1 10, 0, 1, true, false⟩]).take 2).map
          (fun s => s.mat.mp_id) = ["mp-a", "mp-b"]
    ∧ (recommend
        [⟨"mp-a", "A", 0, 0, 1, true, false⟩,
         ⟨"mp-b", "B", mkRat 1 20, 0, 1, true, false⟩,
         ⟨"mp-c", "C", mkRat 1 10, 0, 1, true, false⟩] ⟨none, none⟩ none false
        2).candidates.map (fun e => e.mat.mp_id) = ["mp-a", "mp-b"] := by
  decide

/-- C9 counterexample: with a nonempty `optimize` argument and an adapter
search returning zero candidates, the early return of `recommend` does not
carry the optimization objectives that were passed (it carries `none`). -/
theorem recommend_empty_drops_objectives :
    (recommend [] ⟨none, none⟩ (some ["weight"]) false 5).optimize_objectives = none
    ∧ (none : Option (List String)) ≠ some ["weight"] := by
  decide

/-- C9 amended: every result of `recommend` carries the originating
requirements; a result from a nonempty search also carries the originating
optimization objectives, while the early return for an empty search carries
`none` in their place; an empty search and an empty post-filter candidate set
both yield a valid empty result (the function is total, no exception). -/
theorem recommend_traceability (srch : List MaterialRecord) (reqs : Requirements)
    (optimize : Option (List String)) (st : Bool) (top_n : ℕ) :
    (recommend srch reqs optimize st top_n).requirements = reqs
    ∧ (srch ≠ [] →
        (recommend srch reqs optimize st top_n).optimize_objectives = optimize)
    ∧ (srch = [] →
        (recommend srch reqs optimize st top_n).candidates = []
        ∧ (recommend srch reqs optimize st top_n).optimize_objectives = none)
    ∧ (apply_filters reqs srch = [] →
        (recommend srch reqs optimize st top_n).candidates = []) := by
  unfold recommend
  by_cases h : srch.length = 0
  · rw [List.length_eq_zero] at h
    subst h
    simp
  · have hne : srch ≠ [] := by
      intro hc
      exact h (by rw [hc]; rfl)
    rw [if_neg (by rwa [List.length_eq_zero])]
    refine ⟨rfl, fun _ => rfl, fun hc => absurd hc hne, ?_⟩
    intro hfil
    simp [hfil, score_materials, with_match_score, sort_values_desc, enrich_materials]

/-- Witness for C9 at a concrete input: a nonempty search result carries the
passed objectives through. -/
theorem recommend_traceability_witness :
    (recommend [⟨"mp-1", "A", 0, 0, 3, true, false⟩] ⟨none, none⟩ (some ["weight"]) true
        5).optimize_objectives = some ["weight"] :=
  (recommend_traceability [⟨"mp-1", "A", 0, 0, 3, true, false⟩] ⟨none, none⟩
      (some ["weight"]) true 5).2.1 (by decide)

/-- The Explainer contract as the specification words it: three independent
conditions tested in a fixed order, each contributing a fixed phrase, the
true ones joined by "; ", with the fallback "Meets requirements" when none
holds.  A second definition following the spec text, to compare with
`recommendation_reason`, which is translated from the source loop
(`mkRat 1 50` is 0.02). -/
def explainerContract (is_stable : Option Bool) (density : Option ℚ)
    (energy_above_hull : Option ℚ) : String :=
  let conds : List (Bool × String) :=
    [(is_stable.getD false, "Thermodynamically stable"),
     (decide (density.getD 10 < 5), "Lightweight"),
     (decide (energy_above_hull.getD 1 < mkRat 1 50), "Highly stable")]
  let phrases := (conds.filter (fun c => c.1)).map (fun c => c.2)
  if phrases.isEmpty then "Meets requirements" else String.intercalate "; " phrases

/-- C5: the Explainer is a pure function of the record's fields: it equals its
contract (conditions tested in the fixed order is_stable, density < 5,
energy_above_hull < 0.02, each appending its fixed phrase, joined by "; ");
when no condition holds the rationale is exactly "Meets requirements"; a
missing density behaves exactly like density 10, which fails the 5 g/cm³
test; with all three conditions true the phrases appear in the fixed order. -/
theorem explainer_spec (st : Option Bool) (d e : Option ℚ) :
    recommendation_reason st d e = explainerContract st d e
    ∧ (st.getD false = false → ¬(d.getD 10 < 5) → ¬(e.getD 1 < mkRat 1 50) →
        recommendation_reason st d e = "Meets requirements")
    ∧ (∀ (st2 : Option Bool) (e2 : Option ℚ),
        recommendation_reason st2 none e2 = recommendation_reason st2 (some 10) e2)
    ∧ ¬((10 : ℚ) < 5)
    ∧ recommendation_reason (some true) (some 3) (some 0) =
        "Thermodynamically stable; Lightweight; Highly stable" := by
  refine ⟨?_, ?_, fun st2 e2 => rfl, by norm_num, by decide⟩
  · rcases hc1 : st.getD false with _ | _ <;>
      by_cases hc2 : d.getD 10 < 5 <;>
        by_cases hc3 : e.getD 1 < mkRat 1 50 <;>
          simp [recommendation_reason, explainerContract, hc1, hc2, hc3,
            String.intercalate]
  · intro h1 h2 h3
    simp [recommendation_reason, h1, h2, h3]

/-- Witness for C5 at a concrete input: a heavy, metastable, not-stable record
gets the fallback rationale. -/
theorem explainer_spec_witness :
    recommendation_reason (some false) (some 6) (some 1) = "Meets requirements" :=
  (explainer_spec (some false) (some 6) (some 1)).2.1 (by decide) (by decide) (by decide)

/-- One detailed record from `MaterialsProjectSource.get_material_by_id`: the
columns the comparator's delta computation uses. -/
structure DetailedRecord where
  mp_id : String
  formula : String
  energy_above_hull : ℚ
  band_gap : ℚ
  density : ℚ
  formation_energy : ℚ
  deriving DecidableEq, Repr

/-- A cell of a `_vs_baseline_%` column.  pandas float division by a zero
baseline does not raise: it yields NaN for 0/0 and a signed infinity for a
nonzero numerator; finite values are idealised as exact rationals. -/
inductive DeltaCell where
  | val : ℚ → DeltaCell
  | posInf : DeltaCell
  | negInf : DeltaCell
  | nan : DeltaCell
  deriving DecidableEq, Repr

/-- An integer as a rational, computably (`Int.cast` does not reduce). -/
def intToRat (n : ℤ) : ℚ := Rat.divInt n 1

theorem intToRat_eq (n : ℤ) : intToRat n = (n : ℚ) := by
  rw [intToRat, Rat.divInt_eq_div]
  simp

/-- numpy `rint`: round to the nearest integer, halves to the even integer. -/
def roundHalfEven (q : ℚ) : ℤ :=
  let f := Int.fdiv q.num (q.den : ℤ)
  let frac := qsub q (intToRat f)
  if frac < mkRat 1 2 then f
  else if mkRat 1 2 < frac then f + 1
  else if f % 2 = 0 then f else f + 1

/-- `Series.round(1)` as numpy computes it: scale by 10, round half to even,
scale back. -/
def round1 (q : ℚ) : ℚ := qdiv (intToRat (roundHalfEven (qmul q 10))) 10

/-- One cell of `(df[col] - baseline[col]) / baseline[col] * 100).round(1)`:
the float special values arise exactly when the baseline value is zero. -/
def pdelta (v b : ℚ) : DeltaCell :=
  if b = 0 then
    if v = 0 then DeltaCell.nan
    else if 0 < v then DeltaCell.posInf
    else DeltaCell.negInf
  else DeltaCell.val (round1 (qmul (qdiv (qsub v b) b) 100))

/-- One row of the comparison table of `MatSelectAI.what_if`; a delta column
is `none` when the source did not add it (a table of at most one row). -/
structure WhatIfRow where
  mat : DetailedRecord
  density_vs_baseline : Option DeltaCell
  band_gap_vs_baseline : Option DeltaCell
  formation_energy_vs_baseline : Option DeltaCell
  deriving DecidableEq, Repr

/-- The fetch loop of `MatSelectAI.what_if` (recommender.py lines 258-264):
each identifier is looked up with `get_material_by_id`; the adapter signals
"not found" with `ValueError` (materials_project.py line 131), modelled as
`none`, which the loop catches, warns about and skips.  Any other adapter
failure propagates and is outside this model. -/
def fetch_loop (adapter : String → Option DetailedRecord) : List String → List DetailedRecord
  | [] => []
  | i :: rest =>
    match adapter i with
    | some r => r :: fetch_loop adapter rest
    | none => fetch_loop adapter rest

/-- `MatSelectAI.what_if` (recommender.py lines 241-276): fetch
`[baseline] + alternatives` in order, skipping identifiers that are not
found; when `show_savings` holds and more than one row was fetched, add the
three `_vs_baseline_%` delta columns computed against row 0 of the fetched
table. -/
def what_if (adapter : String → Option DetailedRecord) (baseline_material : String)
    (alternative_materials : List String) (show_savings : Bool := true) : List WhatIfRow :=
  let rows := fetch_loop adapter (baseline_material :: alternative_materials)
  if show_savings && decide (1 < rows.length) then
    match rows with
    | [] => []
    | b :: _ =>
      rows.map (fun r =>
        ⟨r, some (pdelta r.density b.density), some (pdelta r.band_gap b.band_gap),
          some (pdelta r.formation_energy b.formation_energy)⟩)
  else
    rows.map (fun r => ⟨r, none, none, none⟩)

theorem fetch_loop_eq_filterMap (adapter : String → Option DetailedRecord)
    (ids : List String) : fetch_loop adapter ids = ids.filterMap adapter := by
  induction ids with
  | nil => rfl
  | cons i rest ih =>
    unfold fetch_loop
    rw [List.filterMap_cons]
    rcases h : adapter i with _ | r
    · exact ih
    · rw [ih]

theorem length_filterMap_countP (adapter : String → Option DetailedRecord)
    (ids : List String) :
    (ids.filterMap adapter).length = ids.countP (fun i => (adapter i).isSome) := by
  induction ids with
  | nil => rfl
  | cons i rest ih =>
    rw [List.filterMap_cons, List.countP_cons]
    rcases h : adapter i with _ | r
    · simp [h, ih]
    · simp [h, ih]

theorem what_if_map_mat (adapter : String → Option DetailedRecord) (b : String)
    (alts : List String) (ss : Bool) :
    (what_if adapter b alts ss).map WhatIfRow.mat = fetch_loop adapter (b :: alts) := by
  cases hrows : fetch_loop adapter (b :: alts) with
  | nil => simp [what_if, hrows]
  | cons r rs =>
    by_cases hss : ss = true
    · by_cases hlen : 1 < rs.length + 1
      · simp [what_if, hrows, hss, hlen, List.map_map, Function.comp_def]
      · simp [what_if, hrows, hss, hlen, List.map_map, Function.comp_def]
    · simp only [Bool.not_eq_true] at hss
      simp [what_if, hrows, hss, List.map_map, Function.comp_def]

theorem what_if_eq_map (adapter : String → Option DetailedRecord) (b : String)
    (alts : List String) (r0 : DetailedRecord) (rs : List DetailedRecord)
    (h : fetch_loop adapter (b :: alts) = r0 :: rs) (hrs : rs ≠ []) :
    what_if adapter b alts true =
      (r0 :: rs).map (fun r =>
        ⟨r, some (pdelta r.density r0.density), some (pdelta r.band_gap r0.band_gap),
          some (pdelta r.formation_energy r0.formation_energy)⟩) := by
  have hlen : 1 < (r0 :: rs).length := by
    simpa using Nat.succ_lt_succ (List.length_pos.mpr hrs)
  simp [what_if, h, hlen, hrs]

/-- The record of the duplicate-comparison scenario: density 7.0. -/
def dup149 : DetailedRecord := ⟨"mp-149", "Si", 0, 1, 7, -1⟩

/-- An adapter holding exactly `dup149`. -/
def dupAdapter : String → Option DetailedRecord :=
  fun i => if i = "mp-149" then some dup149 else none

/-- A baseline record whose density is zero. -/
def zeroBase : DetailedRecord := ⟨"mp-z", "Z", 0, 1, 0, 2⟩

/-- An alternative with nonzero density to compare against `zeroBase`. -/
def altRec : DetailedRecord := ⟨"mp-a", "A", 0, 2, 3, 4⟩

/-- An adapter holding exactly `zeroBase` and `altRec`. -/
def zeroAdapter : String → Option DetailedRecord :=
  fun i => if i = "mp-z" then some zeroBase else if i = "mp-a" then some altRec else none

/-- C6: the comparator fetches `[baseline] + alternatives` in order; an
identifier the adapter does not have contributes no row (it is skipped and
omitted from the table), each found identifier contributes exactly one row,
and the table is built from all successfully fetched records, in fetch order.
The model is a total function: a not-found identifier cannot raise to the
caller of `compare`. -/
theorem comparator_fetch_spec (adapter : String → Option DetailedRecord)
    (baseline : String) (alts : List String) (ss : Bool) :
    (what_if adapter baseline alts ss).map WhatIfRow.mat =
      (baseline :: alts).filterMap adapter
    ∧ (what_if adapter baseline alts ss).length =
      (baseline :: alts).countP (fun i => (adapter i).isSome) := by
  have h1 := what_if_map_mat adapter baseline alts ss
  constructor
  · rw [h1, fetch_loop_eq_filterMap]
  · have h2 : (what_if adapter baseline alts ss).length =
        ((what_if adapter baseline alts ss).map WhatIfRow.mat).length := by
      rw [List.length_map]
    rw [h2, h1, fetch_loop_eq_filterMap, length_filterMap_countP]

/-- C7: when more than one record was fetched, every row of the table
carries, for each of the compared columns density, band_gap and
formation_energy, the percentage delta against the baseline row; a nonzero
baseline cell is `(value - baseline)/baseline * 100` rounded to one decimal;
comparing a record with a duplicate of itself at density 7.0 yields a
density delta of exactly 0.0 on the duplicate row. -/
theorem comparator_delta_spec :
    (∀ (adapter : String → Option DetailedRecord) (b : String) (alts : List String)
      (r0 : DetailedRecord) (rs : List DetailedRecord),
      fetch_loop adapter (b :: alts) = r0 :: rs → rs ≠ [] →
      what_if adapter b alts true =
        (r0 :: rs).map (fun r =>
          ⟨r, some (pdelta r.density r0.density), some (pdelta r.band_gap r0.band_gap),
            some (pdelta r.formation_energy r0.formation_energy)⟩))
    ∧ (∀ v bv : ℚ, bv ≠ 0 → pdelta v bv = DeltaCell.val (round1 ((v - bv) / bv * 100)))
    ∧ (what_if dupAdapter "mp-149" ["mp-149"] true).map WhatIfRow.density_vs_baseline =
        [some (DeltaCell.val 0), some (DeltaCell.val 0)] := by
  refine ⟨fun adapter b alts r0 rs h hrs => what_if_eq_map adapter b alts r0 rs h hrs,
    ?_, by decide⟩
  intro v bv hbv
  unfold pdelta
  rw [if_neg hbv, qsub_eq_sub, qdiv_eq_div, qmul_eq_mul]

/-- Witness for C7 at a concrete input: the duplicate-comparison table is the
mapped delta table over the two fetched copies. -/
theorem comparator_delta_spec_witness :
    what_if dupAdapter "mp-149" ["mp-149"] true =
      [dup149, dup149].map (fun r =>
        ⟨r, some (pdelta r.density dup149.density), some (pdelta r.band_gap dup149.band_gap),
          some (pdelta r.formation_energy dup149.formation_energy)⟩) :=
  comparator_delta_spec.1 dupAdapter "mp-149" ["mp-149"] dup149 [dup149] (by decide) (by decide)

/-- C8 counterexample: with a zero-density baseline and an alternative of
density 3, the affected delta cell of the alternative row is a (positive)
infinity, not NaN and not a missing value; the other delta columns of the
table are nevertheless produced (band_gap deltas 0.0 and 100.0). -/
theorem comparator_zero_baseline_counterexample :
    (what_if zeroAdapter "mp-z" ["mp-a"] true).map WhatIfRow.density_vs_baseline =
      [some DeltaCell.nan, some DeltaCell.posInf]
    ∧ some DeltaCell.posInf ≠ some DeltaCell.nan
    ∧ some DeltaCell.posInf ≠ (none : Option DeltaCell)
    ∧ (what_if zeroAdapter "mp-z" ["mp-a"] true).map WhatIfRow.band_gap_vs_baseline =
      [some (DeltaCell.val 0), some (DeltaCell.val 100)] := by
  decide

/-- C8 amended: with a zero baseline value in a compared column, `compare`
still produces the whole table and does not raise: in that column the delta
cell is NaN exactly on rows whose own value is also zero and a signed
infinity otherwise, and the delta cells of the remaining compared columns
are still computed as usual. -/
theorem comparator_zero_baseline_spec (adapter : String → Option DetailedRecord)
    (b : String) (alts : List String) (r0 : DetailedRecord) (rs : List DetailedRecord)
    (h : fetch_loop adapter (b :: alts) = r0 :: rs) (hrs : rs ≠ [])
    (h0 : r0.density = 0) :
    ∀ row ∈ what_if adapter b alts true,
      (row.mat.density = 0 → row.density_vs_baseline = some DeltaCell.nan)
      ∧ (0 < row.mat.density → row.density_vs_baseline = some DeltaCell.posInf)
      ∧ (row.mat.density < 0 → row.density_vs_baseline = some DeltaCell.negInf)
      ∧ row.band_gap_vs_baseline = some (pdelta row.mat.band_gap r0.band_gap)
      ∧ row.formation_energy_vs_baseline =
          some (pdelta row.mat.formation_energy r0.formation_energy) := by
  intro row hrow
  rw [what_if_eq_map adapter b alts r0 rs h hrs] at hrow
  rcases List.mem_map.mp hrow with ⟨r, _, rfl⟩
  refine ⟨?_, ?_, ?_, rfl, rfl⟩
  · intro hv
    have hv2 : r.density = 0 := hv
    simp [pdelta, h0, hv2]
  · intro hv
    have hv2 : (0 : ℚ) < r.density := hv
    simp [pdelta, h0, hv2, hv2.ne']
  · intro hv
    have hv2 : r.density < 0 := hv
    have hnl : ¬(0 : ℚ) < r.density := not_lt.mpr hv2.le
    simp [pdelta, h0, hv2.ne, hnl]

/-- Witness for C8 at a concrete input: the alternative row of the
zero-baseline table indeed carries a positive infinity in the density delta
column. -/
theorem comparator_zero_baseline_spec_witness :
    (⟨altRec, some DeltaCell.posInf, some (DeltaCell.val 100),
        some (DeltaCell.val 100)⟩ : WhatIfRow).density_vs_baseline =
      some DeltaCell.posInf :=
  (comparator_zero_baseline_spec zeroAdapter "mp-z" ["mp-a"] zeroBase [altRec]
      (by decide) (by decide) (by decide)
      ⟨altRec, some DeltaCell.posInf, some (DeltaCell.val 100), some (DeltaCell.val 100)⟩
      (by decide)).2.1 (by decide)

/-- C10: when the baseline identifier itself is not found, `what_if` behaves
exactly as if the first alternative had been the requested baseline: the
first fetched record becomes row 0 and all deltas are computed against it,
with no error and no indication to the caller. -/
theorem comparator_baseline_promotion (adapter : String → Option DetailedRecord)
    (b a1 : String) (rest : List String) (ss : Bool) (h : adapter b = none) :
    what_if adapter b (a1 :: rest) ss = what_if adapter a1 rest ss := by
  have hfl : fetch_loop adapter (b :: a1 :: rest) = fetch_loop adapter (a1 :: rest) := by
    simp [fetch_loop, h]
  unfold what_if
  rw [hfl]

/-- Witness for C10 at a concrete input: a missing baseline identifier makes
the comparison identical to one that uses the first alternative as its
baseline. -/
theorem comparator_baseline_promotion_witness :
    what_if zeroAdapter "mp-x" ["mp-z", "mp-a"] true =
      what_if zeroAdapter "mp-z" ["mp-a"] true :=
  comparator_baseline_promotion zeroAdapter "mp-x" "mp-z" ["mp-a"] true (by decide)

end MatSelect
